import Mathlib

/-!
Verification of the session-registry and lifecycle core of aws-ssm-connect.

The embedded code comes from two places in the repository that implement the
same component twice (an evolving CLI):
  * the `tunnel` package (SavePID, ListPIDs, KillPID, KillAllPIDs,
    StartPortForward, processExists, isPortInUse) and
  * `main.go` (savePID, listPIDs, killPID, killAllPIDs, startPortForward).

The registry file `pids.json` is modelled as `Option FileText`: `none` is an
absent file, `some t` a present file whose text is either valid JSON (`FileText.json`)
or not valid JSON at all (`FileText.invalid`).  JSON values are a small AST whose
numbers are integers (the only numbers the program ever writes or reads are
process ids).  `json.Unmarshal` into `[]PIDInfo` or `LastSelection` is embedded
as a decoder that fails (returns `none`) exactly when Go reports an error:
text that is not JSON, a value of the wrong shape, or a field of the wrong
type; a missing field or a JSON null leaves the Go zero value in place and is
not an error.  `json.MarshalIndent` of a nil (empty) record slice prints the
text `null`, which the encoder reflects by mapping `[]` to `Json.null`.
The decoder uses first-match field lookup; the encoders in this program never
produce duplicate keys, and Go case-folding lookup is not exercised either.

The operating system is a parameter: the signal-0 liveness probe is a map
`Int → Bool`, and the outcome of `syscall.Kill(-pid, SIGKILL)` is a value of
`KillOutcome` (success, the error whose text contains "no such process", or
any other error).  `os.MkdirAll` and `os.WriteFile` are modelled as succeeding;
read errors other than file-absence are not modelled.
-/

set_option autoImplicit false

/-- JSON values as written and read by this program; numbers are restricted to
integers because only process ids are ever serialised as numbers. -/
inductive Json where
  | null
  | bool (b : Bool)
  | num (n : Int)
  | str (s : String)
  | arr (items : List Json)
  | obj (fields : List (String × Json))

/-- The text content of a file on disk: either well-formed JSON text, or text
that `json.Unmarshal` rejects outright. -/
inductive FileText where
  | json (j : Json)
  | invalid

/-- The registry file state: `none` when `pids.json` does not exist. -/
abbrev RegState := Option FileText

/-- `PIDInfo` from the `tunnel` package and `main.go` (identical declarations):
one session record of the registry. -/
structure PIDInfo where
  PID : Int
  Profile : String
  Instance : String
  DB : String
deriving DecidableEq, Repr

/-- `LastSelection` from `internal/tunnel/selection.go` and `main.go`. -/
structure LastSelection where
  Profile : String
  InstanceName : String
  InstanceID : String
  DBEndpoint : String
  DBPort : String
deriving DecidableEq, Repr

/-- Outcome of one `syscall.Kill(-pid, syscall.SIGKILL)` call: no error, the
"no such process" error, or any other error. -/
inductive KillOutcome where
  | ok
  | noSuchProcess
  | otherError
deriving DecidableEq, Repr

/-- First-match lookup of a key among the fields of a JSON object. -/
def lookupField : List (String × Json) → String → Option Json
  | [], _ => none
  | (k, v) :: rest, key => if k = key then some v else lookupField rest key

/-- Decoding one string-typed struct field, as `json.Unmarshal` does: a missing
field or a JSON null leaves the zero value `""`; a non-string value is an error. -/
def getStr (fields : List (String × Json)) (key : String) : Option String :=
  match lookupField fields key with
  | none => some ""
  | some (Json.str s) => some s
  | some Json.null => some ""
  | some _ => none

/-- Decoding one int-typed struct field, as `json.Unmarshal` does. -/
def getInt (fields : List (String × Json)) (key : String) : Option Int :=
  match lookupField fields key with
  | none => some (0 : Int)
  | some (Json.num n) => some n
  | some Json.null => some (0 : Int)
  | some _ => none

/-- `json.Unmarshal` of one JSON value into a `PIDInfo` struct (tags `pid`,
`profile`, `instance`, `db`); a JSON null leaves the struct zeroed. -/
def decodeRecord (j : Json) : Option PIDInfo :=
  match j with
  | Json.null => some ⟨0, "", "", ""⟩
  | Json.obj fs => do
      let pid ← getInt fs "pid"
      let profile ← getStr fs "profile"
      let inst ← getStr fs "instance"
      let db ← getStr fs "db"
      pure ⟨pid, profile, inst, db⟩
  | _ => none

/-- Element-wise decoding of a JSON array into records; any bad element makes
the whole `json.Unmarshal` call fail. -/
def decodeRecordList : List Json → Option (List PIDInfo)
  | [] => some []
  | x :: xs => do
      let p ← decodeRecord x
      let rest ← decodeRecordList xs
      pure (p :: rest)

/-- `json.Unmarshal` of JSON text into `[]PIDInfo`: `null` yields the nil
slice without error; an array decodes element-wise; anything else is an error. -/
def decodeRecords (j : Json) : Option (List PIDInfo) :=
  match j with
  | Json.null => some []
  | Json.arr xs => decodeRecordList xs
  | _ => none

/-- `json.Unmarshal` of raw file text into `[]PIDInfo`. -/
def decodeFile (t : FileText) : Option (List PIDInfo) :=
  match t with
  | FileText.json j => decodeRecords j
  | FileText.invalid => none

/-- `json.Marshal` of one record. -/
def encodeRecord (p : PIDInfo) : Json :=
  Json.obj [("pid", Json.num p.PID), ("profile", Json.str p.Profile),
            ("instance", Json.str p.Instance), ("db", Json.str p.DB)]

/-- `json.MarshalIndent` of a `[]PIDInfo` slice: the program only ever marshals
slices built from a nil slice by appends, so an empty slice is the nil slice
and prints the JSON text `null`. -/
def encodeRecords (rs : List PIDInfo) : Json :=
  match rs with
  | [] => Json.null
  | _ => Json.arr (rs.map encodeRecord)

/-- `processExists` (both copies): `os.FindProcess` always succeeds on Unix and
the probe reports whatever delivering signal 0 to the pid reports. -/
def processExists (signal0ok : Int → Bool) (pid : Int) : Bool :=
  signal0ok pid

/-- The `data, err := os.ReadFile; if err == nil { _ = json.Unmarshal(data, &x) }`
pattern: read the registry ignoring both read errors and parse errors, leaving
the nil slice in either failure case. -/
def existingRecords (st : RegState) : List PIDInfo :=
  match st with
  | none => []
  | some t => (decodeFile t).getD []

/-- `SavePID` of the `tunnel` package: read the existing file, ignore any read
or parse failure (treating the content as the empty collection), append the
new record and rewrite the file. -/
def SavePID (info : PIDInfo) (st : RegState) : RegState :=
  some (FileText.json (encodeRecords (existingRecords st ++ [info])))

/-- `savePID` of `main.go`: the same read-append-rewrite body as `SavePID`. -/
def savePID (info : PIDInfo) (st : RegState) : RegState :=
  SavePID info st

/-- What a list call reports: the two error returns, the
"No active port-forward sessions." message, or the printed alive records. -/
inductive ListOutcome where
  | readError
  | parseError
  | noSessions
  | sessions (rs : List PIDInfo)
deriving DecidableEq, Repr

/-- `ListPIDs` of the `tunnel` package: a failed read is an error; malformed
content is an error; otherwise the alive subset (in file order) is written
back and presented, or "No active port-forward sessions." when it is empty. -/
def ListPIDs (signal0ok : Int → Bool) (st : RegState) : ListOutcome × RegState :=
  match st with
  | none => (ListOutcome.readError, none)
  | some t =>
    match decodeFile t with
    | none => (ListOutcome.parseError, some t)
    | some pids =>
      let alive := pids.filter (fun p => processExists signal0ok p.PID)
      let st2 : RegState := some (FileText.json (encodeRecords alive))
      if alive.isEmpty then (ListOutcome.noSessions, st2)
      else (ListOutcome.sessions alive, st2)

/-- `listPIDs` of `main.go`: the same body as `ListPIDs`. -/
def listPIDs (signal0ok : Int → Bool) (st : RegState) : ListOutcome × RegState :=
  ListPIDs signal0ok st

/-- What a single-kill call reports. -/
inductive KillPIDOutcome where
  | killFailed
  | readError
  | parseError
  | removed
deriving DecidableEq, Repr

/-- `KillPID` of the `tunnel` package: group-kill the pid; any error other than
"no such process" aborts; otherwise read the file ignoring read and parse
errors, drop the records with this pid and rewrite the file (creating it when
it was absent). -/
def KillPID (kr : KillOutcome) (pid : Int) (st : RegState) : KillPIDOutcome × RegState :=
  if kr = KillOutcome.otherError then (KillPIDOutcome.killFailed, st)
  else
    let updated := (existingRecords st).filter (fun p => p.PID ≠ pid)
    (KillPIDOutcome.removed, some (FileText.json (encodeRecords updated)))

/-- `killPID` of `main.go`: group-kill the pid; any error other than
"no such process" aborts; a read failure or malformed content is a reported
error leaving the file as it was; otherwise the records with this pid are
dropped and the file rewritten. -/
def killPID (kr : KillOutcome) (pid : Int) (st : RegState) : KillPIDOutcome × RegState :=
  if kr = KillOutcome.otherError then (KillPIDOutcome.killFailed, st)
  else
    match st with
    | none => (KillPIDOutcome.readError, none)
    | some t =>
      match decodeFile t with
      | none => (KillPIDOutcome.parseError, some t)
      | some pids =>
        let updated := pids.filter (fun p => p.PID ≠ pid)
        (KillPIDOutcome.removed, some (FileText.json (encodeRecords updated)))

/-- Per-record outcome inside kill-all: a kill error other than
"no such process" is reported as a failure for that record; success and
"no such process" are both treated as a successful cleanup. -/
inductive RecKill where
  | success
  | failure
deriving DecidableEq, Repr

/-- How one `syscall.Kill` outcome is reported inside the kill-all loop. -/
def classifyKill (o : KillOutcome) : RecKill :=
  match o with
  | KillOutcome.otherError => RecKill.failure
  | _ => RecKill.success

/-- What a kill-all call reports. -/
inductive KillAllOutcome where
  | noSessions
  | parseError
  | done (outcomes : List RecKill)
deriving DecidableEq, Repr

/-- `KillAllPIDs` of the `tunnel` package: an absent file is "nothing to do";
a parse failure is ignored (empty collection); every record is group-killed in
turn with per-record reporting and no early exit; the file is then removed
unconditionally. -/
def KillAllPIDs (kr : Int → KillOutcome) (st : RegState) : KillAllOutcome × RegState :=
  match st with
  | none => (KillAllOutcome.noSessions, none)
  | some t =>
    let pids := (decodeFile t).getD []
    (KillAllOutcome.done (pids.map (fun p => classifyKill (kr p.PID))), none)

/-- `killAllPIDs` of `main.go`: as `KillAllPIDs`, except malformed content is a
reported error that leaves the file in place. -/
def killAllPIDs (kr : Int → KillOutcome) (st : RegState) : KillAllOutcome × RegState :=
  match st with
  | none => (KillAllOutcome.noSessions, none)
  | some t =>
    match decodeFile t with
    | none => (KillAllOutcome.parseError, some t)
    | some pids =>
      (KillAllOutcome.done (pids.map (fun p => classifyKill (kr p.PID))), none)

/-- What a launch call reports. -/
inductive StartOutcome where
  | portInUse
  | openNullFailed
  | startFailed
  | started (pid : Int)
deriving DecidableEq, Repr

/-- `StartPortForward` of the `tunnel` package.  `portBusy` is what
`isPortInUse localPort` reported; `startPid` is `none` when `cmd.Start()`
failed and `some pid` when the OS started the subprocess with that pid
(`/dev/null` open errors are ignored by this copy).  On a successful start
the new record is appended via `SavePID` and the pid is reported. -/
def StartPortForward (portBusy : Bool) (startPid : Option Int)
    (profile instanceName instanceID remoteHost remotePort localPort : String)
    (st : RegState) : StartOutcome × RegState :=
  if portBusy then (StartOutcome.portInUse, st)
  else
    match startPid with
    | none => (StartOutcome.startFailed, st)
    | some pid =>
      (StartOutcome.started pid,
       SavePID ⟨pid, profile, instanceName, remoteHost ++ ":" ++ localPort⟩ st)

/-- `startPortForward` of `main.go`: as `StartPortForward`, except a failure to
open `/dev/null` (before the start) is its own error return. -/
def startPortForward (portBusy : Bool) (devNullErr : Bool) (startPid : Option Int)
    (profile instanceName instanceID host remotePort localPort : String)
    (st : RegState) : StartOutcome × RegState :=
  if portBusy then (StartOutcome.portInUse, st)
  else if devNullErr then (StartOutcome.openNullFailed, st)
  else
    match startPid with
    | none => (StartOutcome.startFailed, st)
    | some pid =>
      (StartOutcome.started pid,
       SavePID ⟨pid, profile, instanceName, host ++ ":" ++ localPort⟩ st)

/-- `json.MarshalIndent` of a `LastSelection` (tags `profile`, `instance_name`,
`instance_id`, `db_endpoint`, `db_port`). -/
def encodeLastSelection (s : LastSelection) : Json :=
  Json.obj [("profile", Json.str s.Profile), ("instance_name", Json.str s.InstanceName),
            ("instance_id", Json.str s.InstanceID), ("db_endpoint", Json.str s.DBEndpoint),
            ("db_port", Json.str s.DBPort)]

/-- `json.Unmarshal` of JSON text into a `LastSelection` struct. -/
def decodeLastSelection (j : Json) : Option LastSelection :=
  match j with
  | Json.null => some ⟨"", "", "", "", ""⟩
  | Json.obj fs => do
      let profile ← getStr fs "profile"
      let instName ← getStr fs "instance_name"
      let instID ← getStr fs "instance_id"
      let dbEndpoint ← getStr fs "db_endpoint"
      let dbPort ← getStr fs "db_port"
      pure ⟨profile, instName, instID, dbEndpoint, dbPort⟩
  | _ => none

/-- `WriteLastSelection` of `internal/tunnel/selection.go`: marshal the record
and overwrite the last-selection file with it. -/
def WriteLastSelection (sel : LastSelection) (_st : Option FileText) : Option FileText :=
  some (FileText.json (encodeLastSelection sel))

/-- `ReadLastSelection` of `internal/tunnel/selection.go`: an absent file is a
read error, non-JSON or wrongly shaped content a parse error, otherwise the
decoded record is returned. -/
def ReadLastSelection (st : Option FileText) : Option LastSelection :=
  match st with
  | none => none
  | some FileText.invalid => none
  | some (FileText.json j) => decodeLastSelection j

/-- The list of records a list call presents to the caller: the printed alive
records, or nothing on an error or the no-sessions message. -/
def presentedList (o : ListOutcome) : List PIDInfo :=
  match o with
  | ListOutcome.sessions rs => rs
  | _ => []

theorem decodeRecord_encodeRecord (p : PIDInfo) : decodeRecord (encodeRecord p) = some p := rfl

theorem decodeRecordList_map_encodeRecord (l : List PIDInfo) :
    decodeRecordList (l.map encodeRecord) = some l := by
  induction l with
  | nil => rfl
  | cons p rest ih =>
    simp [List.map, decodeRecordList, decodeRecord_encodeRecord, ih]

/-- Marshalling a record list and unmarshalling the resulting text restores the
list, the empty case going through the JSON text `null`. -/
theorem decodeFile_encodeRecords (rs : List PIDInfo) :
    decodeFile (FileText.json (encodeRecords rs)) = some rs := by
  match rs with
  | [] => rfl
  | p :: rest =>
    simp [decodeFile, encodeRecords, decodeRecords, decodeRecordList,
      decodeRecord_encodeRecord, decodeRecordList_map_encodeRecord rest]

theorem existingRecords_encodeRecords (rs : List PIDInfo) :
    existingRecords (some (FileText.json (encodeRecords rs))) = rs := by
  simp [existingRecords, decodeFile_encodeRecords]

/-- Folding `SavePID` over a launch sequence starting from a well-formed file
appends the new records in order. -/
theorem foldl_SavePID_encodeRecords (infos : List PIDInfo) :
    ∀ acc : List PIDInfo,
      infos.foldl (fun s i => SavePID i s) (some (FileText.json (encodeRecords acc)))
        = some (FileText.json (encodeRecords (acc ++ infos))) := by
  induction infos with
  | nil => intro acc; simp
  | cons i rest ih =>
    intro acc
    have hstep : SavePID i (some (FileText.json (encodeRecords acc)))
        = some (FileText.json (encodeRecords (acc ++ [i]))) := by
      simp [SavePID, existingRecords_encodeRecords]
    calc (i :: rest).foldl (fun s i => SavePID i s) (some (FileText.json (encodeRecords acc)))
        = rest.foldl (fun s i => SavePID i s) (some (FileText.json (encodeRecords (acc ++ [i])))) := by
          simp [List.foldl, hstep]
      _ = some (FileText.json (encodeRecords ((acc ++ [i]) ++ rest))) := ih (acc ++ [i])
      _ = some (FileText.json (encodeRecords (acc ++ i :: rest))) := by simp

/-- Folding `SavePID` over a launch sequence starting from an absent registry
file stores exactly the launched records in order. -/
theorem foldl_SavePID_none (infos : List PIDInfo) (h : infos ≠ []) :
    infos.foldl (fun s i => SavePID i s) none
      = some (FileText.json (encodeRecords infos)) := by
  match infos, h with
  | i :: rest, _ =>
    have hstep : SavePID i none = some (FileText.json (encodeRecords ([] ++ [i]))) := rfl
    calc (i :: rest).foldl (fun s i => SavePID i s) none
        = rest.foldl (fun s i => SavePID i s) (some (FileText.json (encodeRecords [i]))) := by
          simp [List.foldl, hstep]
      _ = some (FileText.json (encodeRecords ([i] ++ rest))) := foldl_SavePID_encodeRecords rest [i]
      _ = some (FileText.json (encodeRecords (i :: rest))) := by simp

/-- On a well-formed file the list call leaves on disk exactly the alive
subset of the records, in the order read. -/
theorem ListPIDs_snd (signal0ok : Int → Bool) (t : FileText) (rs : List PIDInfo)
    (h : decodeFile t = some rs) :
    (ListPIDs signal0ok (some t)).2
      = some (FileText.json (encodeRecords (rs.filter (fun p => processExists signal0ok p.PID)))) := by
  simp only [ListPIDs, h]
  split <;> rfl

/-- On a well-formed file the list call presents exactly the alive subset of
the records, in the order read (the no-sessions message presenting nothing). -/
theorem ListPIDs_presented (signal0ok : Int → Bool) (t : FileText) (rs : List PIDInfo)
    (h : decodeFile t = some rs) :
    presentedList (ListPIDs signal0ok (some t)).1
      = rs.filter (fun p => processExists signal0ok p.PID) := by
  simp only [ListPIDs, h]
  split
  next hemp => simpa [presentedList] using (List.isEmpty_iff.mp hemp).symm
  next => rfl

/-- C9: writing a Last-Selection record with `WriteLastSelection` and reading it
back with `ReadLastSelection`, with no intervening write, succeeds and yields a
record equal field-for-field to the one written, from any prior file state. -/
theorem C9_last_selection_roundtrip (sel : LastSelection) (st : Option FileText) :
    ReadLastSelection (WriteLastSelection sel st) = some sel := rfl

/-- C1: for a registry file holding a well-formed record list, the list
operation (both the `tunnel` copy and the `main.go` copy) partitions the
records by the signal-0 liveness probe, writes back to the file exactly the
alive subset, and presents that subset in the order read from disk; after N
launches appended onto an absent registry, with every launched process still
alive and no kills, listing yields exactly those N records in launch order. -/
theorem C1_list_prunes_and_preserves_order (signal0ok : Int → Bool) (t : FileText)
    (rs : List PIDInfo) (h : decodeFile t = some rs) :
    ((ListPIDs signal0ok (some t)).2
        = some (FileText.json (encodeRecords (rs.filter (fun p => processExists signal0ok p.PID)))) ∧
      decodeFile (FileText.json (encodeRecords (rs.filter (fun p => processExists signal0ok p.PID))))
        = some (rs.filter (fun p => processExists signal0ok p.PID)) ∧
      presentedList (ListPIDs signal0ok (some t)).1
        = rs.filter (fun p => processExists signal0ok p.PID) ∧
      listPIDs signal0ok (some t) = ListPIDs signal0ok (some t)) ∧
    ∀ infos : List PIDInfo, (∀ p ∈ infos, processExists signal0ok p.PID = true) →
      presentedList (ListPIDs signal0ok (infos.foldl (fun s i => SavePID i s) none)).1 = infos ∧
      presentedList (listPIDs signal0ok (infos.foldl (fun s i => savePID i s) none)).1 = infos := by
  refine ⟨⟨ListPIDs_snd signal0ok t rs h, decodeFile_encodeRecords _,
      ListPIDs_presented signal0ok t rs h, rfl⟩, ?_⟩
  intro infos hlive
  have h1 : presentedList (ListPIDs signal0ok (infos.foldl (fun s i => SavePID i s) none)).1
      = infos := by
    match infos with
    | [] => rfl
    | i :: rest =>
      rw [foldl_SavePID_none (i :: rest) (by simp)]
      rw [ListPIDs_presented signal0ok _ _ (decodeFile_encodeRecords (i :: rest))]
      exact List.filter_eq_self.mpr (fun a ha => hlive a ha)
  exact ⟨h1, h1⟩

/-- Witness for C1 at a concrete two-record registry where only PID 1 is
alive: listing presents exactly the record with PID 1. -/
theorem C1_list_prunes_and_preserves_order_witness :
    decodeFile (FileText.json (encodeRecords
        [⟨1, "p1", "web", "db:5432"⟩, ⟨2, "p2", "api", "cache:6379"⟩]))
      = some [⟨1, "p1", "web", "db:5432"⟩, ⟨2, "p2", "api", "cache:6379"⟩] ∧
    presentedList (ListPIDs (fun pid => decide (pid = 1))
        (some (FileText.json (encodeRecords
          [⟨1, "p1", "web", "db:5432"⟩, ⟨2, "p2", "api", "cache:6379"⟩])))).1
      = [⟨1, "p1", "web", "db:5432"⟩] :=
  ⟨by decide,
   ((C1_list_prunes_and_preserves_order (fun pid => decide (pid = 1))
      (FileText.json (encodeRecords
        [⟨1, "p1", "web", "db:5432"⟩, ⟨2, "p2", "api", "cache:6379"⟩]))
      [⟨1, "p1", "web", "db:5432"⟩, ⟨2, "p2", "api", "cache:6379"⟩]
      (by decide)).1.2.2.1).trans (by decide)⟩

/-- C2: when the local port passes the availability check (so the busy guard
is not taken), a successful OS start makes both launcher copies append exactly
one record carrying the new subprocess pid to the previously stored records
and report that pid, while a failed OS start returns an error and leaves the
registry file exactly as it was. -/
theorem C2_start_appends_on_success_only
    (profile instName instID host rPort lPort : String) (st : RegState)
    (rs : List PIDInfo) (h : existingRecords st = rs) :
    (∀ pid : Int,
      StartPortForward false (some pid) profile instName instID host rPort lPort st
        = (StartOutcome.started pid,
           some (FileText.json (encodeRecords
             (rs ++ [⟨pid, profile, instName, host ++ ":" ++ lPort⟩])))) ∧
      startPortForward false false (some pid) profile instName instID host rPort lPort st
        = (StartOutcome.started pid,
           some (FileText.json (encodeRecords
             (rs ++ [⟨pid, profile, instName, host ++ ":" ++ lPort⟩])))) ∧
      decodeFile (FileText.json (encodeRecords
          (rs ++ [⟨pid, profile, instName, host ++ ":" ++ lPort⟩])))
        = some (rs ++ [⟨pid, profile, instName, host ++ ":" ++ lPort⟩])) ∧
    (StartPortForward false none profile instName instID host rPort lPort st
        = (StartOutcome.startFailed, st) ∧
      startPortForward false false none profile instName instID host rPort lPort st
        = (StartOutcome.startFailed, st)) := by
  refine ⟨fun pid => ⟨?_, ?_, decodeFile_encodeRecords _⟩, rfl, rfl⟩
  · simp [StartPortForward, SavePID, h]
  · simp [startPortForward, SavePID, h]

/-- Witness for C2 on an absent registry: a successful start with pid 7
stores exactly the one new record, and a failed start leaves the file absent. -/
theorem C2_start_appends_on_success_only_witness :
    existingRecords none = [] ∧
    StartPortForward false (some 7) "pp" "web" "i-0abc" "db.internal" "5432" "5432" none
      = (StartOutcome.started 7,
         some (FileText.json (encodeRecords [⟨7, "pp", "web", "db.internal:5432"⟩]))) :=
  ⟨rfl,
   ((C2_start_appends_on_success_only "pp" "web" "i-0abc" "db.internal" "5432" "5432"
      none [] rfl).1 7).1.trans (by simp)⟩

/-- C3: kill-all (both copies) treats an absent registry file as a successful
no-op; on a well-formed file it attempts the group kill on every stored record
without aborting, reporting "no such process" as success rather than failure,
and removes the registry file regardless of the individual outcomes, so after
a successful return the file does not exist. -/
theorem C3_killall_removes_file (kr : Int → KillOutcome) (t : FileText)
    (rs : List PIDInfo) (h : decodeFile t = some rs) :
    (KillAllPIDs kr none = (KillAllOutcome.noSessions, none) ∧
      killAllPIDs kr none = (KillAllOutcome.noSessions, none)) ∧
    (KillAllPIDs kr (some t)
        = (KillAllOutcome.done (rs.map (fun p => classifyKill (kr p.PID))), none) ∧
      killAllPIDs kr (some t)
        = (KillAllOutcome.done (rs.map (fun p => classifyKill (kr p.PID))), none)) ∧
    (rs.map (fun p => classifyKill (kr p.PID))).length = rs.length ∧
    classifyKill KillOutcome.noSuchProcess = RecKill.success := by
  refine ⟨⟨rfl, rfl⟩, ⟨?_, ?_⟩, by simp, rfl⟩
  · simp [KillAllPIDs, h]
  · simp [killAllPIDs, h]

/-- Witness for C3 on a concrete one-record registry whose process is already
dead: the kill is reported as success and the file is removed. -/
theorem C3_killall_removes_file_witness :
    decodeFile (FileText.json (encodeRecords [⟨9, "pp", "web", "db:5432"⟩]))
      = some [⟨9, "pp", "web", "db:5432"⟩] ∧
    KillAllPIDs (fun _ => KillOutcome.noSuchProcess)
        (some (FileText.json (encodeRecords [⟨9, "pp", "web", "db:5432"⟩])))
      = (KillAllOutcome.done [RecKill.success], none) :=
  ⟨by decide,
   ((C3_killall_removes_file (fun _ => KillOutcome.noSuchProcess)
      (FileText.json (encodeRecords [⟨9, "pp", "web", "db:5432"⟩]))
      [⟨9, "pp", "web", "db:5432"⟩] (by decide)).2.1.1).trans (by simp [classifyKill])⟩

/-- C4 counterexample: with the registry file completely absent, both list
copies return the read error, not the no-active-sessions report (they do
create no file, but the claimed no-error behavior is false). -/
theorem C4_counterexample_absent_is_error :
    ListPIDs (fun _ => false) none = (ListOutcome.readError, none) ∧
    listPIDs (fun _ => false) none = (ListOutcome.readError, none) ∧
    ListOutcome.readError ≠ ListOutcome.noSessions :=
  ⟨rfl, rfl, by decide⟩

/-- C4 amended: when the registry file is absent the list operation returns a
read error ("could not read pids file") and creates no registry file; a parse
error is surfaced when the file is present but malformed; the explicit
no-active-sessions report happens exactly when the file is present,
well-formed, and no stored PID probes alive. -/
theorem C4_amended_absent_list_errors (signal0ok : Int → Bool) (t : FileText) :
    (ListPIDs signal0ok none = (ListOutcome.readError, none) ∧
      listPIDs signal0ok none = (ListOutcome.readError, none)) ∧
    (decodeFile t = none →
      ListPIDs signal0ok (some t) = (ListOutcome.parseError, some t)) ∧
    (∀ rs, decodeFile t = some rs →
      rs.filter (fun p => processExists signal0ok p.PID) = [] →
      (ListPIDs signal0ok (some t)).1 = ListOutcome.noSessions) := by
  refine ⟨⟨rfl, rfl⟩, fun hbad => by simp [ListPIDs, hbad], fun rs hok hdead => ?_⟩
  simp [ListPIDs, hok, hdead]

/-- Witness for C4 amended: a file holding plain text that is not JSON makes
the list call report the parse error and leave the file untouched. -/
theorem C4_amended_absent_list_errors_witness :
    decodeFile FileText.invalid = none ∧
    ListPIDs (fun _ => false) (some FileText.invalid)
      = (ListOutcome.parseError, some FileText.invalid) :=
  ⟨rfl, (C4_amended_absent_list_errors (fun _ => false) FileText.invalid).2.1 rfl⟩

/-- C5 counterexample: killing PID 999999 (never launched, group kill reports
"no such process") with the registry file absent: the `main.go` copy returns a
read error instead of success, and the `tunnel` copy succeeds but creates the
registry file (writing the JSON text `null`), changing whether the file
exists — so the claim fails on both copies. -/
theorem C5_counterexample_absent_registry :
    killPID KillOutcome.noSuchProcess 999999 none = (KillPIDOutcome.readError, none) ∧
    KillPIDOutcome.readError ≠ KillPIDOutcome.removed ∧
    KillPID KillOutcome.noSuchProcess 999999 none
      = (KillPIDOutcome.removed, some (FileText.json Json.null)) ∧
    (some (FileText.json Json.null) : RegState) ≠ none :=
  ⟨rfl, by decide, rfl, by simp⟩

/-- C5 amended: for a PID absent from a registry file that exists and holds a
well-formed record list, when the group kill does not fail with an error other
than "no such process", both kill copies return success and rewrite the file
with the record set unchanged (the file still exists and decodes to the same
records); the original claim additionally covered the absent-file case, where
the `main.go` copy errors and the `tunnel` copy creates the file. -/
theorem C5_amended_kill_absent_pid (kr : KillOutcome) (pid : Int) (t : FileText)
    (rs : List PIDInfo) (hk : kr ≠ KillOutcome.otherError)
    (h : decodeFile t = some rs) (hp : ∀ p ∈ rs, p.PID ≠ pid) :
    KillPID kr pid (some t)
      = (KillPIDOutcome.removed, some (FileText.json (encodeRecords rs))) ∧
    killPID kr pid (some t)
      = (KillPIDOutcome.removed, some (FileText.json (encodeRecords rs))) ∧
    decodeFile (FileText.json (encodeRecords rs)) = some rs := by
  have hfilter : rs.filter (fun p => !decide (p.PID = pid)) = rs :=
    List.filter_eq_self.mpr (fun a ha => by simpa using hp a ha)
  refine ⟨?_, ?_, decodeFile_encodeRecords rs⟩
  · simp [KillPID, hk, existingRecords, h, hfilter]
  · simp [killPID, hk, h, hfilter]

/-- Witness for C5 amended: killing PID 999999 against a one-record registry
for the live PID 3 leaves the single record in place and reports success. -/
theorem C5_amended_kill_absent_pid_witness :
    (KillOutcome.noSuchProcess ≠ KillOutcome.otherError) ∧
    decodeFile (FileText.json (encodeRecords [⟨3, "pp", "web", "db:5432"⟩]))
      = some [⟨3, "pp", "web", "db:5432"⟩] ∧
    KillPID KillOutcome.noSuchProcess 999999
        (some (FileText.json (encodeRecords [⟨3, "pp", "web", "db:5432"⟩])))
      = (KillPIDOutcome.removed,
         some (FileText.json (encodeRecords [⟨3, "pp", "web", "db:5432"⟩]))) :=
  ⟨by decide, by decide,
   (C5_amended_kill_absent_pid KillOutcome.noSuchProcess 999999
      (FileText.json (encodeRecords [⟨3, "pp", "web", "db:5432"⟩]))
      [⟨3, "pp", "web", "db:5432"⟩] (by decide) (by decide) (by decide)).1⟩

/-- C6: when the local port availability check reports busy, both launcher
copies fail immediately with the port-in-use error and return the registry
file state exactly as it was, whatever the would-be launch outcome was. -/
theorem C6_port_busy_launches_nothing (startPid : Option Int) (devNullErr : Bool)
    (profile instName instID host rPort lPort : String) (st : RegState) :
    StartPortForward true startPid profile instName instID host rPort lPort st
      = (StartOutcome.portInUse, st) ∧
    startPortForward true devNullErr startPid profile instName instID host rPort lPort st
      = (StartOutcome.portInUse, st) :=
  ⟨rfl, rfl⟩

/-- C7 counterexample: launching with remote port 5432 and local port 15432
stores a record whose db field is "db.example.com:15432" — the remote host
joined with the LOCAL port — which differs from the remote endpoint
description "db.example.com:5432" the claim requires. -/
theorem C7_counterexample_db_uses_local_port :
    existingRecords (StartPortForward false (some 42)
        "pp" "web" "i-0abc" "db.example.com" "5432" "15432" none).2
      = [⟨42, "pp", "web", "db.example.com:15432"⟩] ∧
    ("db.example.com:15432" : String) ≠ "db.example.com" ++ ":" ++ "5432" :=
  ⟨by decide, by decide⟩

/-- C7 amended: every record created by a successful launch stores in its db
field the remote host joined with the LOCAL port of the forward (it equals
the remote endpoint description only when the two ports coincide). -/
theorem C7_amended_db_is_host_local_port (pid : Int)
    (profile instName instID host rPort lPort : String) (st : RegState) :
    (StartPortForward false (some pid) profile instName instID host rPort lPort st).2
      = some (FileText.json (encodeRecords
          (existingRecords st ++ [⟨pid, profile, instName, host ++ ":" ++ lPort⟩]))) ∧
    (startPortForward false false (some pid) profile instName instID host rPort lPort st).2
      = some (FileText.json (encodeRecords
          (existingRecords st ++ [⟨pid, profile, instName, host ++ ":" ++ lPort⟩]))) :=
  ⟨rfl, rfl⟩

/-- C8: list-with-prune is idempotent: starting from a well-formed registry
file, a second list call under the same liveness answers presents the same
records as the first and leaves the file content exactly as the first call
left it (no further removals). -/
theorem C8_list_prune_idempotent (signal0ok : Int → Bool) (t : FileText)
    (rs : List PIDInfo) (h : decodeFile t = some rs) :
    (ListPIDs signal0ok (ListPIDs signal0ok (some t)).2).2
      = (ListPIDs signal0ok (some t)).2 ∧
    presentedList (ListPIDs signal0ok (ListPIDs signal0ok (some t)).2).1
      = presentedList (ListPIDs signal0ok (some t)).1 ∧
    listPIDs signal0ok (listPIDs signal0ok (some t)).2
      = ListPIDs signal0ok (ListPIDs signal0ok (some t)).2 := by
  have hidem : (rs.filter (fun p => processExists signal0ok p.PID)).filter
      (fun p => processExists signal0ok p.PID)
      = rs.filter (fun p => processExists signal0ok p.PID) :=
    List.filter_eq_self.mpr (fun a ha => (List.mem_filter.mp ha).2)
  have h2 := ListPIDs_snd signal0ok t rs h
  refine ⟨?_, ?_, rfl⟩
  · rw [h2, ListPIDs_snd signal0ok _ _ (decodeFile_encodeRecords _), hidem]
  · rw [h2, ListPIDs_presented signal0ok _ _ (decodeFile_encodeRecords _), hidem,
      ListPIDs_presented signal0ok t rs h]

/-- Witness for C8 at a concrete two-record registry where only PID 1 is
alive: the state after the second list call equals the state after the first. -/
theorem C8_list_prune_idempotent_witness :
    decodeFile (FileText.json (encodeRecords
        [⟨1, "p1", "web", "db:5432"⟩, ⟨2, "p2", "api", "cache:6379"⟩]))
      = some [⟨1, "p1", "web", "db:5432"⟩, ⟨2, "p2", "api", "cache:6379"⟩] ∧
    presentedList (ListPIDs (fun pid => decide (pid = 1))
        (ListPIDs (fun pid => decide (pid = 1))
          (some (FileText.json (encodeRecords
            [⟨1, "p1", "web", "db:5432"⟩, ⟨2, "p2", "api", "cache:6379"⟩])))).2).1
      = presentedList (ListPIDs (fun pid => decide (pid = 1))
          (some (FileText.json (encodeRecords
            [⟨1, "p1", "web", "db:5432"⟩, ⟨2, "p2", "api", "cache:6379"⟩])))).1 :=
  ⟨by decide,
   (C8_list_prune_idempotent (fun pid => decide (pid = 1))
      (FileText.json (encodeRecords
        [⟨1, "p1", "web", "db:5432"⟩, ⟨2, "p2", "api", "cache:6379"⟩]))
      [⟨1, "p1", "web", "db:5432"⟩, ⟨2, "p2", "api", "cache:6379"⟩] (by decide)).2.1⟩

/-- C10: the append operation never fails because of the existing registry
content: when the file exists but its content does not unmarshal, both append
copies silently treat it as the empty collection and overwrite it, so the
registry afterwards holds exactly the one new record and nothing of the prior
content survives; no error is reported for the malformed content. -/
theorem C10_append_overwrites_malformed (info : PIDInfo) (t : FileText)
    (h : decodeFile t = none) :
    SavePID info (some t) = some (FileText.json (encodeRecords [info])) ∧
    savePID info (some t) = some (FileText.json (encodeRecords [info])) ∧
    decodeFile (FileText.json (encodeRecords [info])) = some [info] := by
  refine ⟨?_, ?_, decodeFile_encodeRecords [info]⟩
  · simp [SavePID, existingRecords, h]
  · simp [savePID, SavePID, existingRecords, h]

/-- Witness for C10: appending over a file of non-JSON text leaves exactly the
one new record. -/
theorem C10_append_overwrites_malformed_witness :
    decodeFile FileText.invalid = none ∧
    SavePID ⟨5, "pp", "web", "db:5432"⟩ (some FileText.invalid)
      = some (FileText.json (encodeRecords [⟨5, "pp", "web", "db:5432"⟩])) :=
  ⟨rfl, (C10_append_overwrites_malformed ⟨5, "pp", "web", "db:5432"⟩
    FileText.invalid rfl).1⟩
